import Mathlib

/-!
Verification of the rating/odds core of the odds-calculator repository
(src/elo_calculator.py) against its natural-language specification.

Modelling conventions:
* Python floats are modelled as exact rationals (ℚ) where the code only uses
  field arithmetic and comparisons, and as real numbers (ℝ) where the code
  uses transcendental functions (`10 ** x`, `math.log`).
* Python `round` is round-half-to-even; `pyRound` / `pyRoundR` model it on
  ℚ / ℝ, and `pyRoundTo n x` models `round(x, n)`.
* Python dictionaries keyed by team name are modelled as total functions
  `String → Option _` (`none` = key absent); `dict.get(k, d)` is `Option.getD`.
* A Python function that can raise an uncaught exception on some input
  (ZeroDivisionError from `x / 0`, IndexError from `elo_bands[0]` on an empty
  list) is modelled with result type `Option _`, `none` standing for the
  raised exception.
-/

/-- Python `round` on ℚ: round half to even (banker's rounding). -/
def pyRound (x : ℚ) : ℤ :=
  if x - ⌊x⌋ = 1 / 2 then (if ⌊x⌋ % 2 = 0 then ⌊x⌋ else ⌊x⌋ + 1) else round x

/-- Python `round(x, n)` on ℚ: round to `n` decimal digits, half to even. -/
def pyRoundTo (n : ℕ) (x : ℚ) : ℚ :=
  (pyRound (x * 10 ^ n) : ℚ) / 10 ^ n

/-- Constant `HOME_ADVANTAGE_MULTIPLIER = 1.11` of src/elo_calculator.py. -/
def HOME_ADVANTAGE_MULTIPLIER : ℚ := 1.11

/-- Constant `AWAY_DISADVANTAGE_MULTIPLIER = 0.89` of src/elo_calculator.py. -/
def AWAY_DISADVANTAGE_MULTIPLIER : ℚ := 0.89

/-- Constant `DRAW_HOME_MULTIPLIER = 0.95` of src/elo_calculator.py. -/
def DRAW_HOME_MULTIPLIER : ℚ := 0.95

/-- Constant `DRAW_AWAY_MULTIPLIER = 1.05` of src/elo_calculator.py. -/
def DRAW_AWAY_MULTIPLIER : ℚ := 1.05

/-- One entry of elo_bands.json as the code reads it: a band number plus the
three historical outcome percentages. -/
structure EloBand where
  band : ℤ
  stronger_win_pct : ℚ
  draw_pct : ℚ
  weaker_win_pct : ℚ
deriving DecidableEq

/-- Python `adjust_probability_for_venue(base_prob, is_stronger_team_home,
market)` (src/elo_calculator.py lines 30-63); `market` is one of the strings
the source compares against, anything else falls through unadjusted. -/
def adjust_probability_for_venue (base_prob : ℚ) (is_stronger_team_home : Bool)
    (market : String) : ℚ :=
  if market = "stronger_win" then
    if is_stronger_team_home then base_prob * HOME_ADVANTAGE_MULTIPLIER
    else base_prob * AWAY_DISADVANTAGE_MULTIPLIER
  else if market = "weaker_win" then
    if is_stronger_team_home then base_prob * AWAY_DISADVANTAGE_MULTIPLIER
    else base_prob * HOME_ADVANTAGE_MULTIPLIER
  else if market = "draw" then
    if is_stronger_team_home then base_prob * DRAW_HOME_MULTIPLIER
    else base_prob * DRAW_AWAY_MULTIPLIER
  else base_prob

/-- Band number for a rating gap: `min(int(elo_diff // 50) + 1, 10)` as
computed at src/elo_calculator.py lines 79-80 and 581-582. -/
def bandNumber (home_elo away_elo : ℚ) : ℤ :=
  min (⌊|home_elo - away_elo| / 50⌋ + 1) 10

/-- The band lookup loop of src/elo_calculator.py (lines 83-87 and 585-589):
first entry whose `band` field equals the wanted band number. -/
def findBand (elo_bands : List EloBand) (band_num : ℤ) : Option EloBand :=
  elo_bands.find? (fun b => b.band == band_num)

/-- Result dictionary of `get_venue_adjusted_probabilities`. -/
structure VenueProbs where
  home_win : ℚ
  draw : ℚ
  away_win : ℚ
deriving DecidableEq

/-- Python `get_venue_adjusted_probabilities(home_elo, away_elo, elo_bands)`
(src/elo_calculator.py lines 66-124). `none` models the ZeroDivisionError the
source raises when the three venue-adjusted values sum to zero. -/
def get_venue_adjusted_probabilities (home_elo away_elo : ℚ)
    (elo_bands : List EloBand) : Option VenueProbs :=
  let band_num := bandNumber home_elo away_elo
  match findBand elo_bands band_num with
  | none => some ⟨0.333, 0.333, 0.334⟩
  | some band_data =>
    let is_stronger_home : Bool := decide (home_elo ≥ away_elo)
    let stronger_adj :=
      adjust_probability_for_venue band_data.stronger_win_pct is_stronger_home "stronger_win"
    let weaker_adj :=
      adjust_probability_for_venue band_data.weaker_win_pct is_stronger_home "weaker_win"
    let draw_adj :=
      adjust_probability_for_venue band_data.draw_pct is_stronger_home "draw"
    let total := stronger_adj + weaker_adj + draw_adj
    if total = 0 then none
    else
      let stronger_n := stronger_adj / total
      let weaker_n := weaker_adj / total
      let draw_n := draw_adj / total
      if is_stronger_home then
        some ⟨pyRoundTo 4 stronger_n, pyRoundTo 4 draw_n, pyRoundTo 4 weaker_n⟩
      else
        some ⟨pyRoundTo 4 weaker_n, pyRoundTo 4 draw_n, pyRoundTo 4 stronger_n⟩

/-- One market of the `calculate_fair_odds` result: probability plus decimal
fair odds. -/
structure OddsEntry where
  probability : ℚ
  fair_odds : ℚ
deriving DecidableEq

/-- The `meta` sub-dictionary of the `calculate_fair_odds` result. -/
structure FairOddsMeta where
  elo_diff : ℚ
  band : ℤ
  stronger_team : String
  home_elo : ℚ
  away_elo : ℚ
deriving DecidableEq

/-- The full `calculate_fair_odds` result dictionary. -/
structure FairOddsResult where
  home_win : OddsEntry
  draw : OddsEntry
  away_win : OddsEntry
  meta : FairOddsMeta
deriving DecidableEq

/-- Python module-level `calculate_fair_odds(home_team_elo, away_team_elo,
elo_bands)` (src/elo_calculator.py lines 559-647 — the later definition, which
shadows the one at lines 127-154 when the module is imported). `none` models
an uncaught exception: IndexError from the `elo_bands[0]` fallback on an empty
table, ZeroDivisionError from normalizing when the adjusted values sum to
zero, or ZeroDivisionError from the unguarded `1 / probability` inversion when
an outcome probability is exactly zero. -/
def calculate_fair_odds (home_team_elo away_team_elo : ℚ)
    (elo_bands : List EloBand) : Option FairOddsResult :=
  let elo_diff := |home_team_elo - away_team_elo|
  let band_num := min (⌊elo_diff / 50⌋ + 1) 10
  let band_found :=
    match findBand elo_bands band_num with
    | some b => some b
    | none => elo_bands.head?
  match band_found with
  | none => none
  | some band_data =>
    let is_stronger_home : Bool := decide (home_team_elo ≥ away_team_elo)
    let stronger_win_adj :=
      adjust_probability_for_venue band_data.stronger_win_pct is_stronger_home "stronger_win"
    let weaker_win_adj :=
      adjust_probability_for_venue band_data.weaker_win_pct is_stronger_home "weaker_win"
    let draw_adj :=
      adjust_probability_for_venue band_data.draw_pct is_stronger_home "draw"
    let total := stronger_win_adj + draw_adj + weaker_win_adj
    if total = 0 then none
    else
      let stronger_n := stronger_win_adj / total
      let draw_n := draw_adj / total
      let weaker_n := weaker_win_adj / total
      let home_win_prob := if is_stronger_home then stronger_n else weaker_n
      let away_win_prob := if is_stronger_home then weaker_n else stronger_n
      let draw_prob := draw_n
      if home_win_prob = 0 ∨ draw_prob = 0 ∨ away_win_prob = 0 then none
      else
        some
          { home_win := ⟨pyRoundTo 4 home_win_prob, pyRoundTo 2 (1 / home_win_prob)⟩
            draw := ⟨pyRoundTo 4 draw_prob, pyRoundTo 2 (1 / draw_prob)⟩
            away_win := ⟨pyRoundTo 4 away_win_prob, pyRoundTo 2 (1 / away_win_prob)⟩
            meta := ⟨elo_diff, band_num,
              if is_stronger_home then "home" else "away",
              home_team_elo, away_team_elo⟩ }

/-- One match record as `calculate_home_advantage_multipliers` reads it.
`home_elo`/`away_elo` are `none` when the key is absent (the source then
defaults them to 1500, which gets the match skipped, exactly as a recorded
1500 does). -/
structure CalMatch where
  home_elo : Option ℚ
  away_elo : Option ℚ
  home_goals : ℤ
  away_goals : ℤ
deriving DecidableEq

/-- A `{wins, total}` tally of `calculate_home_advantage_multipliers`. -/
structure GroupTally where
  wins : ℕ
  total : ℕ
deriving DecidableEq

/-- The match loop of `calculate_home_advantage_multipliers`
(src/elo_calculator.py lines 169-194): returns the
(stronger_home, stronger_away) tallies after discarding matches with a
missing or default (1500) rating on either side. -/
def calibrationTallies (matches_data : List CalMatch) : GroupTally × GroupTally :=
  matches_data.foldl
    (fun acc m =>
      let home_elo := m.home_elo.getD 1500
      let away_elo := m.away_elo.getD 1500
      if home_elo = 1500 ∨ away_elo = 1500 then acc
      else if home_elo ≥ away_elo then
        (⟨acc.1.wins + (if m.home_goals > m.away_goals then 1 else 0),
          acc.1.total + 1⟩, acc.2)
      else
        (acc.1,
         ⟨acc.2.wins + (if m.away_goals > m.home_goals then 1 else 0),
          acc.2.total + 1⟩))
    (⟨0, 0⟩, ⟨0, 0⟩)

/-- Result of `calculate_home_advantage_multipliers`: either the defaults
plus an error indicator (the safety-check branch, lines 197-202), or the full
statistics dictionary (lines 215-225; the wall-clock `last_updated` field is
outside the model). -/
inductive CalibrationResult where
  | insufficient (home_multiplier away_multiplier : ℚ) (error : String)
  | calibrated (home_multiplier away_multiplier home_win_rate away_win_rate
      combined_rate : ℚ) (sample_size stronger_home_games stronger_away_games : ℕ)
deriving DecidableEq

/-- Python `calculate_home_advantage_multipliers(matches_data)`
(src/elo_calculator.py lines 156-225). -/
def calculate_home_advantage_multipliers (matches_data : List CalMatch) :
    CalibrationResult :=
  let t := calibrationTallies matches_data
  if t.1.total = 0 ∨ t.2.total = 0 then
    .insufficient 1.11 0.89 "Insufficient data"
  else
    let home_win_rate : ℚ := (t.1.wins : ℚ) / (t.1.total : ℚ)
    let away_win_rate : ℚ := (t.2.wins : ℚ) / (t.2.total : ℚ)
    let combined_rate : ℚ :=
      ((t.1.wins + t.2.wins : ℕ) : ℚ) / ((t.1.total + t.2.total : ℕ) : ℚ)
    .calibrated (pyRoundTo 3 (home_win_rate / combined_rate))
      (pyRoundTo 3 (away_win_rate / combined_rate))
      (pyRoundTo 4 home_win_rate) (pyRoundTo 4 away_win_rate)
      (pyRoundTo 4 combined_rate)
      (t.1.total + t.2.total) t.1.total t.2.total

/-- One entry of a team's rating history: `{date, elo}`. -/
structure HistEntry where
  date : String
  elo : ℤ
deriving DecidableEq

/-- Result dictionary of `calculate_form_metrics`. -/
structure FormMetrics where
  elo_change_last_5 : ℤ
  elo_change_last_10 : ℤ
  trend : String
  form_rating : ℚ
deriving DecidableEq

/-- The backward index loop of `calculate_form_metrics` (src/elo_calculator.py
lines 520-524): consecutive rating changes, most recent first, at most
`num_matches` of them. `h.zip h.tail` pairs each entry with its successor, so
the mapped list holds `h[i] - h[i-1]` in ascending order of `i`; reversing and
taking `num_matches` matches the loop from `len(h) - 1` down to
`max(len(h) - num_matches - 1, 0) + 1`. -/
def recentChanges (h : List HistEntry) (num_matches : ℕ) : List ℤ :=
  (((h.zip h.tail).map (fun p => p.2.elo - p.1.elo)).reverse).take num_matches

/-- Python `calculate_form_metrics(team, elo_history, num_matches=10)`
(src/elo_calculator.py lines 492-556). -/
def calculate_form_metrics (team : String)
    (elo_history : String → Option (List HistEntry))
    (num_matches : ℕ := 10) : FormMetrics :=
  match elo_history team with
  | none => ⟨0, 0, "stable", 5.0⟩
  | some hist =>
    if hist.length < 2 then ⟨0, 0, "stable", 5.0⟩
    else
      let sorted_history := hist.mergeSort (fun a b => a.date ≤ b.date)
      let recent_changes := recentChanges sorted_history num_matches
      let elo_change_5 :=
        if 5 ≤ recent_changes.length then (recent_changes.take 5).sum
        else recent_changes.sum
      let elo_change_10 :=
        if 10 ≤ recent_changes.length then (recent_changes.take 10).sum
        else recent_changes.sum
      let trend :=
        if elo_change_5 > 15 then "improving"
        else if elo_change_5 < -15 then "declining"
        else "stable"
      let base_form : ℚ := 5 + (elo_change_5 : ℚ) / 10
      let momentum : ℚ :=
        if elo_change_10 ≠ 0 then ((elo_change_5 : ℚ) - (elo_change_10 : ℚ) / 2) / 10
        else 0
      let form_rating := min 10 (max 0 (base_form * 0.6 + (5 + momentum) * 0.4))
      ⟨pyRound (elo_change_5 : ℚ), pyRound (elo_change_10 : ℚ), trend,
        pyRoundTo 1 form_rating⟩

/-- Python `round` on ℝ: round half to even, mirroring `pyRound`. -/
noncomputable def pyRoundR (x : ℝ) : ℤ :=
  if x - ⌊x⌋ = 1 / 2 then (if ⌊x⌋ % 2 = 0 then ⌊x⌋ else ⌊x⌋ + 1) else round x

/-- Python `round(x, n)` on ℝ. -/
noncomputable def pyRoundToR (n : ℕ) (x : ℝ) : ℝ :=
  (pyRoundR (x * 10 ^ n) : ℝ) / 10 ^ n

/-- The `ELOCalculator` class of src/elo_calculator.py (lines 227-489):
constructor configuration (lines 237-256) plus the two storage dictionaries
(lines 258-260), `current_elo` as a partial map from team name to integer
rating and `elo_history` as a (defaultdict) map from team name to its list
of history entries. -/
structure ELOCalculator where
  k_factor : ℝ := 20
  home_advantage : ℝ := 100
  use_mov : Bool := true
  default_elo : ℤ := 1500
  current_elo : String → Option ℤ := fun _ => none
  elo_history : String → List HistEntry := fun _ => []

/-- Python `ELOCalculator.expected_score(team_elo, opponent_elo, is_home)`
(src/elo_calculator.py lines 262-277): the logistic expectation with the
home-advantage bonus added to whichever side is at home. -/
noncomputable def ELOCalculator.expected_score (self : ELOCalculator)
    (team_elo opponent_elo : ℝ) (is_home : Bool) : ℝ :=
  let effective_elo := team_elo + (if is_home then self.home_advantage else 0)
  let opponent_effective :=
    opponent_elo + (if is_home then 0 else self.home_advantage)
  1 / (1 + (10 : ℝ) ^ ((opponent_effective - effective_elo) / 400))

/-- Python `ELOCalculator.margin_of_victory_multiplier(goal_diff, elo_diff)`
(src/elo_calculator.py lines 279-303): `math.log` is the natural logarithm. -/
noncomputable def ELOCalculator.margin_of_victory_multiplier
    (_self : ELOCalculator) (goal_diff : ℤ) (elo_diff : ℝ) : ℝ :=
  if goal_diff = 0 then 1.0
  else
    let goal_factor := Real.log ((|goal_diff| : ℤ) + 1 : ℝ)
    let dampening := 2.2 / (elo_diff * 0.001 + 2.2)
    goal_factor * dampening

/-- Python `ELOCalculator.calculate_elo_change(team_elo, opponent_elo,
team_goals, opponent_goals, is_home)` (src/elo_calculator.py lines 305-353). -/
noncomputable def ELOCalculator.calculate_elo_change (self : ELOCalculator)
    (team_elo opponent_elo : ℝ) (team_goals opponent_goals : ℤ)
    (is_home : Bool) : ℝ :=
  let actual_score : ℝ :=
    if team_goals > opponent_goals then 1.0
    else if team_goals < opponent_goals then 0.0
    else 0.5
  let expected := self.expected_score team_elo opponent_elo is_home
  let k :=
    if self.use_mov ∧ team_goals ≠ opponent_goals then
      self.k_factor *
        self.margin_of_victory_multiplier (|team_goals - opponent_goals|)
          (if team_goals > opponent_goals then team_elo - opponent_elo
           else opponent_elo - team_elo)
    else self.k_factor
  k * (actual_score - expected)

/-- Python `ELOCalculator.process_match(home_team, away_team, home_goals,
away_goals, match_date, update_history=True)` (src/elo_calculator.py lines
355-413): returns the updated calculator state together with the returned
tuple `(new_home_elo, new_away_elo, round(home_change, 1),
round(away_change, 1))`. The two dictionary assignments and the two history
appends are modelled as pointwise function updates in source order. -/
noncomputable def ELOCalculator.process_match (self : ELOCalculator)
    (home_team away_team : String) (home_goals away_goals : ℤ)
    (match_date : String) (update_history : Bool := true) :
    ELOCalculator × (ℤ × ℤ × ℝ × ℝ) :=
  let home_elo : ℤ := (self.current_elo home_team).getD self.default_elo
  let away_elo : ℤ := (self.current_elo away_team).getD self.default_elo
  let home_change :=
    self.calculate_elo_change home_elo away_elo home_goals away_goals true
  let away_change :=
    self.calculate_elo_change away_elo home_elo away_goals home_goals false
  let new_home_elo := pyRoundR (home_elo + home_change)
  let new_away_elo := pyRoundR (away_elo + away_change)
  let current1 := fun t =>
    if t = home_team then some new_home_elo else self.current_elo t
  let current2 := fun t =>
    if t = away_team then some new_away_elo else current1 t
  let hist1 := fun t =>
    if t = home_team then self.elo_history t ++ [⟨match_date, new_home_elo⟩]
    else self.elo_history t
  let hist2 := fun t =>
    if t = away_team then hist1 t ++ [⟨match_date, new_away_elo⟩]
    else hist1 t
  ({ self with
      current_elo := current2
      elo_history := if update_history then hist2 else self.elo_history },
   (new_home_elo, new_away_elo, pyRoundToR 1 home_change,
    pyRoundToR 1 away_change))

/-! ### Helper lemmas -/

/-- Half-even rounding is within one half of its argument. -/
theorem pyRound_abs_le (x : ℚ) : |x - (pyRound x : ℚ)| ≤ 1 / 2 := by
  unfold pyRound
  split_ifs with h1 h2
  · rw [h1]; norm_num [abs_le]
  · rw [abs_le]; push_cast; constructor <;> linarith [h1]
  · exact abs_sub_round x

/-- Three values summing to one, each rounded to four decimal places, sum to
one up to one unit in the fourth decimal place. -/
theorem pyRoundTo_four_sum (a b c : ℚ) (h : a + b + c = 1) :
    |pyRoundTo 4 a + pyRoundTo 4 b + pyRoundTo 4 c - 1| ≤ 1 / 10000 := by
  have ha := pyRound_abs_le (a * 10 ^ 4)
  have hb := pyRound_abs_le (b * 10 ^ 4)
  have hc := pyRound_abs_le (c * 10 ^ 4)
  set A := pyRound (a * 10 ^ 4) with hA
  set B := pyRound (b * 10 ^ 4) with hB
  set C := pyRound (c * 10 ^ 4) with hC
  have hsplit : ((A + B + C - 10000 : ℤ) : ℚ) =
      ((A : ℚ) - a * 10 ^ 4) + ((B : ℚ) - b * 10 ^ 4) + ((C : ℚ) - c * 10 ^ 4) := by
    push_cast
    nlinarith [h]
  have hbound : |((A + B + C - 10000 : ℤ) : ℚ)| ≤ 3 / 2 := by
    rw [hsplit]
    calc |((A : ℚ) - a * 10 ^ 4) + ((B : ℚ) - b * 10 ^ 4) + ((C : ℚ) - c * 10 ^ 4)|
        ≤ |((A : ℚ) - a * 10 ^ 4) + ((B : ℚ) - b * 10 ^ 4)| + |(C : ℚ) - c * 10 ^ 4| :=
          abs_add _ _
      _ ≤ |(A : ℚ) - a * 10 ^ 4| + |(B : ℚ) - b * 10 ^ 4| + |(C : ℚ) - c * 10 ^ 4| := by
          have := abs_add ((A : ℚ) - a * 10 ^ 4) ((B : ℚ) - b * 10 ^ 4)
          linarith
      _ ≤ 3 / 2 := by
          rw [abs_sub_comm (a * 10 ^ 4) ((A : ℚ))] at ha
          rw [abs_sub_comm (b * 10 ^ 4) ((B : ℚ))] at hb
          rw [abs_sub_comm (c * 10 ^ 4) ((C : ℚ))] at hc
          linarith
  have hint : |A + B + C - 10000| ≤ 1 := by
    by_contra hcon
    push_neg at hcon
    have h2 : (2 : ℤ) ≤ |A + B + C - 10000| := hcon
    have h3 : (2 : ℚ) ≤ |((A + B + C - 10000 : ℤ) : ℚ)| := by
      rw [← Int.cast_abs]
      exact_mod_cast h2
    linarith
  have hq : |((A + B + C - 10000 : ℤ) : ℚ)| ≤ 1 := by
    rw [← Int.cast_abs]
    exact_mod_cast hint
  have heq : pyRoundTo 4 a + pyRoundTo 4 b + pyRoundTo 4 c - 1 =
      ((A + B + C - 10000 : ℤ) : ℚ) / 10 ^ 4 := by
    unfold pyRoundTo
    rw [← hA, ← hB, ← hC]
    push_cast
    ring
  rw [heq, abs_div]
  rw [show |((10 : ℚ) ^ 4)| = 10 ^ 4 by norm_num]
  rw [div_le_div_iff₀ (by norm_num) (by norm_num)]
  linarith

/-- The zero-sum identity of the base-10 logistic curve. -/
theorem one_div_rpow_add (x : ℝ) :
    1 / (1 + (10 : ℝ) ^ x) + 1 / (1 + (10 : ℝ) ^ (-x)) = 1 := by
  have hx : (0 : ℝ) < (10 : ℝ) ^ x := Real.rpow_pos_of_pos (by norm_num) x
  rw [Real.rpow_neg (by norm_num : (0 : ℝ) ≤ 10)]
  have h1 : (1 : ℝ) + (10 : ℝ) ^ x ≠ 0 := by positivity
  have h2 : ((10 : ℝ) ^ x) ≠ 0 := ne_of_gt hx
  field_simp
  ring

/-- The logistic pair at opposite rating gaps sums to one. -/
theorem logistic_pair (u v : ℝ) :
    1 / (1 + (10 : ℝ) ^ ((v - u) / 400)) + 1 / (1 + (10 : ℝ) ^ ((u - v) / 400)) = 1 := by
  have h := one_div_rpow_add ((v - u) / 400)
  rw [show (u - v) / 400 = -((v - u) / 400) by ring]
  exact h

/-! ### Claim theorems -/

/-- C1: for all ratings and any `is_home` assignment, the two expected scores
computed with opposite home flags sum to exactly 1 (only the home side's
effective rating gets the home-advantage bonus). -/
theorem expected_score_zero_sum (c : ELOCalculator) (team_elo opponent_elo : ℝ)
    (is_home : Bool) :
    c.expected_score team_elo opponent_elo is_home +
      c.expected_score opponent_elo team_elo (!is_home) = 1 := by
  cases is_home
  · show 1 / (1 + (10 : ℝ) ^ ((opponent_elo + c.home_advantage - (team_elo + 0)) / 400)) +
        1 / (1 + (10 : ℝ) ^ ((team_elo + 0 - (opponent_elo + c.home_advantage)) / 400)) = 1
    exact logistic_pair (team_elo + 0) (opponent_elo + c.home_advantage)
  · show 1 / (1 + (10 : ℝ) ^ ((opponent_elo + 0 - (team_elo + c.home_advantage)) / 400)) +
        1 / (1 + (10 : ℝ) ^ ((team_elo + c.home_advantage - (opponent_elo + 0)) / 400)) = 1
    exact logistic_pair (team_elo + c.home_advantage) (opponent_elo + 0)

/-- C2 counterexample: at goal difference 1 and winner-minus-loser rating
difference -3000 the dampening denominator `(-3000) * 0.001 + 2.2` is
negative, so the margin-of-victory multiplier is negative. -/
theorem mov_multiplier_negative_on_extreme_upset :
    ({} : ELOCalculator).margin_of_victory_multiplier 1 (-3000) < 0 := by
  simp only [ELOCalculator.margin_of_victory_multiplier]
  norm_num
  nlinarith [Real.log_pos (by norm_num : (1 : ℝ) < 2)]

/-- C2 amended: the margin-of-victory multiplier is nonnegative whenever the
winner-minus-loser rating difference is above -2200 (where the dampening
denominator is positive). -/
theorem mov_multiplier_nonneg (c : ELOCalculator) (goal_diff : ℤ) (elo_diff : ℝ)
    (h : -2200 < elo_diff) :
    0 ≤ c.margin_of_victory_multiplier goal_diff elo_diff := by
  simp only [ELOCalculator.margin_of_victory_multiplier]
  split_ifs with h0
  · norm_num
  · apply mul_nonneg
    · apply Real.log_nonneg
      have h1 : (0 : ℝ) ≤ |(goal_diff : ℝ)| := abs_nonneg _
      push_cast
      linarith
    · apply div_nonneg (by norm_num)
      linarith

/-- C2 amended, witness at goal difference 2 and rating difference 100. -/
theorem mov_multiplier_nonneg_witness :
    (-2200 : ℝ) < 100 ∧
      0 ≤ ({} : ELOCalculator).margin_of_victory_multiplier 2 100 :=
  ⟨by norm_num, mov_multiplier_nonneg {} 2 100 (by norm_num)⟩

/-- C6 counterexample: at winner-minus-loser rating difference -3000 the
multiplier strictly decreases from goal difference 1 to 2, so it is not
strictly increasing in goal difference for every rating difference. -/
theorem mov_multiplier_not_increasing_on_extreme_upset :
    ({} : ELOCalculator).margin_of_victory_multiplier 2 (-3000) <
      ({} : ELOCalculator).margin_of_victory_multiplier 1 (-3000) := by
  simp only [ELOCalculator.margin_of_victory_multiplier]
  norm_num
  nlinarith [Real.log_lt_log (by norm_num : (0 : ℝ) < 2) (by norm_num : (2 : ℝ) < 3),
    Real.log_pos (by norm_num : (1 : ℝ) < 2)]

/-- C6 amended: the multiplier equals exactly 1 at goal difference 0, and for
every fixed rating difference above -2200 it is strictly increasing in goal
difference from 1 upward. -/
theorem mov_multiplier_one_and_strict_mono (c : ELOCalculator) :
    (∀ elo_diff : ℝ, c.margin_of_victory_multiplier 0 elo_diff = 1) ∧
    ∀ elo_diff : ℝ, -2200 < elo_diff → ∀ g1 g2 : ℤ, 1 ≤ g1 → g1 < g2 →
      c.margin_of_victory_multiplier g1 elo_diff <
        c.margin_of_victory_multiplier g2 elo_diff := by
  constructor
  · intro d
    norm_num [ELOCalculator.margin_of_victory_multiplier]
  · intro d hd g1 g2 hg1 hlt
    have h1 : g1 ≠ 0 := by omega
    have h2 : g2 ≠ 0 := by omega
    simp only [ELOCalculator.margin_of_victory_multiplier, if_neg h1, if_neg h2]
    have hdamp : 0 < 2.2 / (d * 0.001 + 2.2) := by
      apply div_pos (by norm_num)
      linarith
    apply mul_lt_mul_of_pos_right _ hdamp
    apply Real.log_lt_log
    · have h3 : (0 : ℝ) ≤ |(g1 : ℝ)| := abs_nonneg _
      push_cast
      linarith
    · have e1 : |g1| = g1 := abs_of_pos (by omega)
      have e2 : |g2| = g2 := abs_of_pos (by omega)
      have hc2 : (g1 : ℝ) < (g2 : ℝ) := by exact_mod_cast hlt
      rw [e1, e2]
      linarith

/-- C6 amended, witness at rating difference 100 and goal differences 1 < 2. -/
theorem mov_multiplier_one_and_strict_mono_witness :
    ({} : ELOCalculator).margin_of_victory_multiplier 0 100 = 1 ∧
    ({} : ELOCalculator).margin_of_victory_multiplier 1 100 <
      ({} : ELOCalculator).margin_of_victory_multiplier 2 100 :=
  ⟨(mov_multiplier_one_and_strict_mono {}).1 100,
   (mov_multiplier_one_and_strict_mono {}).2 100 (by norm_num) 1 2 (by norm_num)
     (by norm_num)⟩

/-- C3: the module-level fair-odds computation does not guard the
`1 / probability` inversion: with a band whose stronger-win percentage is 0
and equal ratings, the home-win probability is exactly 0 and the source
raises ZeroDivisionError (modelled as `none`) instead of rejecting or
clamping the zero probability before inversion. -/
theorem calculate_fair_odds_unguarded_zero_probability :
    calculate_fair_odds 1500 1500 [⟨1, 0, 1/2, 1/2⟩] = none := by
  simp [calculate_fair_odds, findBand, bandNumber, List.find?,
    adjust_probability_for_venue, HOME_ADVANTAGE_MULTIPLIER,
    AWAY_DISADVANTAGE_MULTIPLIER, DRAW_HOME_MULTIPLIER, DRAW_AWAY_MULTIPLIER]

/-- C7 counterexample: a band table whose only entry is band 5, looked up
with equal ratings (that is, wanted band 1), misses the band; the module
level `calculate_fair_odds` then substitutes the table's first entry
(`elo_bands[0]`) instead of the uniform fallback, and with that entry's zero
draw percentage the computation raises (modelled as `none`) rather than
degrading to the uniform {0.333, 0.333, 0.334} distribution. -/
theorem calculate_fair_odds_band_miss_not_uniform :
    findBand [⟨5, 1, 0, 0⟩] (bandNumber 1500 1500) = none ∧
    calculate_fair_odds 1500 1500 [⟨5, 1, 0, 0⟩] = none := by
  constructor
  · have h : bandNumber 1500 1500 = 1 := by norm_num [bandNumber]
    rw [h]; rfl
  · simp [calculate_fair_odds, findBand, bandNumber, List.find?,
      adjust_probability_for_venue, HOME_ADVANTAGE_MULTIPLIER,
      AWAY_DISADVANTAGE_MULTIPLIER, DRAW_HOME_MULTIPLIER, DRAW_AWAY_MULTIPLIER]

/-- C7 amended: when the computed band number has no entry in the band table,
`get_venue_adjusted_probabilities` returns the uniform fallback distribution
{0.333, 0.333, 0.334} instead of raising (the module-level
`calculate_fair_odds` instead falls back to the table's first entry). -/
theorem get_venue_probabilities_band_miss_uniform (home_elo away_elo : ℚ)
    (elo_bands : List EloBand)
    (h : findBand elo_bands (bandNumber home_elo away_elo) = none) :
    get_venue_adjusted_probabilities home_elo away_elo elo_bands =
      some ⟨0.333, 0.333, 0.334⟩ := by
  simp only [get_venue_adjusted_probabilities]
  rw [h]

/-- C7 amended, witness: the empty band table misses every band. -/
theorem get_venue_probabilities_band_miss_uniform_witness :
    findBand [] (bandNumber 1500 1500) = none ∧
    get_venue_adjusted_probabilities 1500 1500 [] =
      some ⟨0.333, 0.333, 0.334⟩ :=
  ⟨rfl, get_venue_probabilities_band_miss_uniform 1500 1500 [] rfl⟩

/-- C5: whenever the band lookup succeeds and the band's three percentages
form a probability distribution (nonnegative, summing to 1 — the documented
EloBand invariant), the venue-adjusted, normalized and 4-digit-rounded
home/draw/away probabilities sum to 1 within 1e-4, in both the
stronger-team-home and stronger-team-away configurations. -/
theorem get_venue_probabilities_sum_one (home_elo away_elo : ℚ)
    (elo_bands : List EloBand) (b : EloBand)
    (hfind : findBand elo_bands (bandNumber home_elo away_elo) = some b)
    (hs : 0 ≤ b.stronger_win_pct) (hd : 0 ≤ b.draw_pct)
    (hw : 0 ≤ b.weaker_win_pct)
    (hsum : b.stronger_win_pct + b.draw_pct + b.weaker_win_pct = 1) :
    ∃ p : VenueProbs,
      get_venue_adjusted_probabilities home_elo away_elo elo_bands = some p ∧
      |p.home_win + p.draw + p.away_win - 1| ≤ 1 / 10000 := by
  simp only [get_venue_adjusted_probabilities]
  rw [hfind]
  by_cases hcase : home_elo ≥ away_elo
  · simp [hcase, adjust_probability_for_venue, HOME_ADVANTAGE_MULTIPLIER,
      AWAY_DISADVANTAGE_MULTIPLIER, DRAW_HOME_MULTIPLIER, DRAW_AWAY_MULTIPLIER]
    have hT : b.stronger_win_pct * 1.11 + b.weaker_win_pct * 0.89 +
        b.draw_pct * 0.95 ≠ 0 := by
      intro heq
      nlinarith [hs, hd, hw, hsum]
    refine ⟨_, ⟨hT, rfl⟩, ?_⟩
    dsimp only
    rw [inv_eq_one_div]
    apply pyRoundTo_four_sum
    field_simp
    ring
  · simp [hcase, adjust_probability_for_venue, HOME_ADVANTAGE_MULTIPLIER,
      AWAY_DISADVANTAGE_MULTIPLIER, DRAW_HOME_MULTIPLIER, DRAW_AWAY_MULTIPLIER]
    have hT : b.stronger_win_pct * 0.89 + b.weaker_win_pct * 1.11 +
        b.draw_pct * 1.05 ≠ 0 := by
      intro heq
      nlinarith [hs, hd, hw, hsum]
    refine ⟨_, ⟨hT, rfl⟩, ?_⟩
    dsimp only
    rw [inv_eq_one_div]
    apply pyRoundTo_four_sum
    field_simp
    ring

/-- C5 witness: a concrete band-1 table with distribution (0.5, 0.3, 0.2) at
equal ratings. -/
theorem get_venue_probabilities_sum_one_witness :
    ∃ p : VenueProbs,
      get_venue_adjusted_probabilities 1500 1500 [⟨1, 1/2, 3/10, 1/5⟩] = some p ∧
      |p.home_win + p.draw + p.away_win - 1| ≤ 1 / 10000 :=
  get_venue_probabilities_sum_one 1500 1500 _ ⟨1, 1/2, 3/10, 1/5⟩
    (by
      have h : bandNumber 1500 1500 = 1 := by norm_num [bandNumber]
      rw [h]; rfl)
    (by norm_num) (by norm_num) (by norm_num) (by norm_num)

/-- C8: when, after discarding matches with a missing or default (1500)
rating on either side, the stronger-team-home group or the stronger-team-away
group is empty, calibration returns exactly the defaults 1.11 / 0.89 with the
error indicator Insufficient data — the function returns before any win-rate
division is evaluated, so no division by zero occurs. -/
theorem calibration_insufficient_defaults (matches_data : List CalMatch)
    (h : (calibrationTallies matches_data).1.total = 0 ∨
      (calibrationTallies matches_data).2.total = 0) :
    calculate_home_advantage_multipliers matches_data =
      .insufficient 1.11 0.89 "Insufficient data" := by
  simp only [calculate_home_advantage_multipliers]
  rw [if_pos h]

/-- C8 witness: a single match whose two recorded ratings are both the 1500
default is discarded, leaving both groups empty. -/
theorem calibration_insufficient_defaults_witness :
    ((calibrationTallies [⟨some 1500, some 1500, 2, 0⟩]).1.total = 0 ∨
      (calibrationTallies [⟨some 1500, some 1500, 2, 0⟩]).2.total = 0) ∧
    calculate_home_advantage_multipliers [⟨some 1500, some 1500, 2, 0⟩] =
      .insufficient 1.11 0.89 "Insufficient data" :=
  ⟨Or.inl rfl, calibration_insufficient_defaults _ (Or.inl rfl)⟩

/-- C10: for a team absent from the history map, or with fewer than 2 history
entries, form metrics are the documented defaults: zero 5-match and 10-match
deltas, trend stable, form score 5.0 (for any `num_matches` window). -/
theorem form_metrics_short_history_default (team : String)
    (elo_history : String → Option (List HistEntry)) (num_matches : ℕ)
    (h : elo_history team = none ∨
      ∃ l, elo_history team = some l ∧ l.length < 2) :
    calculate_form_metrics team elo_history num_matches =
      ⟨0, 0, "stable", 5.0⟩ := by
  rcases h with h | ⟨l, hl, hlen⟩
  · simp only [calculate_form_metrics]
    rw [h]
  · simp only [calculate_form_metrics]
    rw [hl]
    simp [hlen]

/-- C10 witness: a team absent from the history map. -/
theorem form_metrics_short_history_default_witness :
    ((fun _ : String => (none : Option (List HistEntry))) "Arsenal" = none ∨
      ∃ l, (fun _ : String => (none : Option (List HistEntry))) "Arsenal" =
          some l ∧ l.length < 2) ∧
    calculate_form_metrics "Arsenal" (fun _ => none) 10 =
      ⟨0, 0, "stable", 5.0⟩ :=
  ⟨Or.inl rfl, form_metrics_short_history_default "Arsenal" _ 10 (Or.inl rfl)⟩

/-- C4: `process_match` reads both current ratings (defaulting absent teams
to 1500), commits the half-even-rounded `round(oldRating + delta)` for both
teams with each delta computed from that team's own perspective (only the
home team marked `is_home`), appends one history entry per team dated with
the match date and carrying the committed rating, and returns the two rounded
new ratings plus both deltas rounded to one decimal. -/
theorem process_match_spec (self : ELOCalculator) (home_team away_team : String)
    (home_goals away_goals : ℤ) (match_date : String)
    (hne : home_team ≠ away_team) (hdef : self.default_elo = 1500) :
    (self.process_match home_team away_team home_goals away_goals match_date
        true).1.current_elo home_team =
      some (pyRoundR (((self.current_elo home_team).getD 1500 : ℤ) +
        self.calculate_elo_change (((self.current_elo home_team).getD 1500 : ℤ) : ℝ)
          (((self.current_elo away_team).getD 1500 : ℤ) : ℝ)
          home_goals away_goals true)) ∧
    (self.process_match home_team away_team home_goals away_goals match_date
        true).1.current_elo away_team =
      some (pyRoundR (((self.current_elo away_team).getD 1500 : ℤ) +
        self.calculate_elo_change (((self.current_elo away_team).getD 1500 : ℤ) : ℝ)
          (((self.current_elo home_team).getD 1500 : ℤ) : ℝ)
          away_goals home_goals false)) ∧
    (self.process_match home_team away_team home_goals away_goals match_date
        true).1.elo_history home_team =
      self.elo_history home_team ++
        [⟨match_date, pyRoundR (((self.current_elo home_team).getD 1500 : ℤ) +
          self.calculate_elo_change (((self.current_elo home_team).getD 1500 : ℤ) : ℝ)
            (((self.current_elo away_team).getD 1500 : ℤ) : ℝ)
            home_goals away_goals true)⟩] ∧
    (self.process_match home_team away_team home_goals away_goals match_date
        true).1.elo_history away_team =
      self.elo_history away_team ++
        [⟨match_date, pyRoundR (((self.current_elo away_team).getD 1500 : ℤ) +
          self.calculate_elo_change (((self.current_elo away_team).getD 1500 : ℤ) : ℝ)
            (((self.current_elo home_team).getD 1500 : ℤ) : ℝ)
            away_goals home_goals false)⟩] ∧
    (self.process_match home_team away_team home_goals away_goals match_date
        true).2 =
      (pyRoundR (((self.current_elo home_team).getD 1500 : ℤ) +
        self.calculate_elo_change (((self.current_elo home_team).getD 1500 : ℤ) : ℝ)
          (((self.current_elo away_team).getD 1500 : ℤ) : ℝ)
          home_goals away_goals true),
       pyRoundR (((self.current_elo away_team).getD 1500 : ℤ) +
        self.calculate_elo_change (((self.current_elo away_team).getD 1500 : ℤ) : ℝ)
          (((self.current_elo home_team).getD 1500 : ℤ) : ℝ)
          away_goals home_goals false),
       pyRoundToR 1 (self.calculate_elo_change
          (((self.current_elo home_team).getD 1500 : ℤ) : ℝ)
          (((self.current_elo away_team).getD 1500 : ℤ) : ℝ)
          home_goals away_goals true),
       pyRoundToR 1 (self.calculate_elo_change
          (((self.current_elo away_team).getD 1500 : ℤ) : ℝ)
          (((self.current_elo home_team).getD 1500 : ℤ) : ℝ)
          away_goals home_goals false)) := by
  simp only [ELOCalculator.process_match, hdef]
  refine ⟨?_, ?_, ?_, ?_, ?_⟩ <;> simp [hne, Ne.symm hne]

/-- C4 witness: a fresh calculator processing a 2-1 home win between two new
teams; the first committed rating is as specified. -/
theorem process_match_spec_witness :
    ("A" : String) ≠ "B" ∧ ({} : ELOCalculator).default_elo = 1500 ∧
    (({} : ELOCalculator).process_match "A" "B" 2 1 "2024-08-17"
        true).1.current_elo "A" =
      some (pyRoundR ((((({} : ELOCalculator).current_elo "A").getD 1500 : ℤ)) +
        ({} : ELOCalculator).calculate_elo_change
          ((((({} : ELOCalculator).current_elo "A").getD 1500 : ℤ)) : ℝ)
          ((((({} : ELOCalculator).current_elo "B").getD 1500 : ℤ)) : ℝ)
          2 1 true)) :=
  ⟨by decide, rfl,
    (process_match_spec {} "A" "B" 2 1 "2024-08-17" (by decide) rfl).1⟩

/-- C9: every `process_match` call (history recording at its default) appends
exactly one history entry for each of the two participating teams, dated with
the match date, and the rating recorded in each appended entry equals that
team's committed current rating after the call. -/
theorem process_match_appends_history (self : ELOCalculator)
    (home_team away_team : String) (home_goals away_goals : ℤ)
    (match_date : String) (hne : home_team ≠ away_team) :
    (∃ e : HistEntry,
      (self.process_match home_team away_team home_goals away_goals match_date
          true).1.elo_history home_team =
        self.elo_history home_team ++ [e] ∧
      e.date = match_date ∧
      some e.elo =
        (self.process_match home_team away_team home_goals away_goals match_date
            true).1.current_elo home_team) ∧
    (∃ e : HistEntry,
      (self.process_match home_team away_team home_goals away_goals match_date
          true).1.elo_history away_team =
        self.elo_history away_team ++ [e] ∧
      e.date = match_date ∧
      some e.elo =
        (self.process_match home_team away_team home_goals away_goals match_date
            true).1.current_elo away_team) := by
  constructor
  · refine ⟨⟨match_date,
      pyRoundR (((self.current_elo home_team).getD self.default_elo : ℤ) +
        self.calculate_elo_change
          (((self.current_elo home_team).getD self.default_elo : ℤ) : ℝ)
          (((self.current_elo away_team).getD self.default_elo : ℤ) : ℝ)
          home_goals away_goals true)⟩, ?_, rfl, ?_⟩
    · simp [ELOCalculator.process_match, hne, Ne.symm hne]
    · simp [ELOCalculator.process_match, hne, Ne.symm hne]
  · refine ⟨⟨match_date,
      pyRoundR (((self.current_elo away_team).getD self.default_elo : ℤ) +
        self.calculate_elo_change
          (((self.current_elo away_team).getD self.default_elo : ℤ) : ℝ)
          (((self.current_elo home_team).getD self.default_elo : ℤ) : ℝ)
          away_goals home_goals false)⟩, ?_, rfl, ?_⟩
    · simp [ELOCalculator.process_match, hne, Ne.symm hne]
    · simp [ELOCalculator.process_match, hne, Ne.symm hne]

/-- C9 witness: a fresh calculator processing a 3-1 home win; the home team's
history gains one entry carrying its committed rating. -/
theorem process_match_appends_history_witness :
    ("A" : String) ≠ "B" ∧
    (∃ e : HistEntry,
      (({} : ELOCalculator).process_match "A" "B" 3 1 "2024-09-01"
          true).1.elo_history "A" =
        ({} : ELOCalculator).elo_history "A" ++ [e] ∧
      e.date = "2024-09-01" ∧
      some e.elo =
        (({} : ELOCalculator).process_match "A" "B" 3 1 "2024-09-01"
            true).1.current_elo "A") :=
  ⟨by decide,
    (process_match_appends_history {} "A" "B" 3 1 "2024-09-01" (by decide)).1⟩
